import Mathlib

/-!
Subject, template and group relations of bk-iam

A shallow embedding of

* `pkg/database/dao/subject_template_group.go`: the manager of table
  `subject_template_group`, and
* `pkg/api/web/handler/group.go`: the web handlers of group membership.

The table is a list of rows in the order the store scans them.  A transaction
carries the table, the store's row counter and clock, and the statements that
were handed to the helpers of package `database`.  `int64` values are `Int`:
the code performs no arithmetic on them.
-/

namespace dao

/-! ## Data model -/

/-- Columns of table `subject_template_group`; the `db` tags of the structs
carry the same names. -/
inductive Column
  | pk
  | subject_pk
  | template_id
  | group_pk
  | expired_at
  | created_at
  deriving DecidableEq, Repr

/-- SubjectTemplateGroup is one row of the relation table (source lines 25-32). -/
structure SubjectTemplateGroup where
  PK : Int
  SubjectPK : Int
  TemplateID : Int
  GroupPK : Int
  ExpiredAt : Int
  CreatedAt : Int
  deriving DecidableEq, Repr

/-- Modelled from the spec: the declaration of `SubjectRelation` is not among
the sources.  It is the argument type of the update, whose statement names the
tags `expired_at`, `subject_pk` and `group_pk`; the spec describes that update
as matching `(subject_pk, group_pk)` and setting `expired_at`. -/
structure SubjectRelation where
  PK : Int
  SubjectPK : Int
  GroupPK : Int
  ExpiredAt : Int
  CreatedAt : Int
  deriving DecidableEq, Repr

/-- Value of a column in a row. -/
def SubjectTemplateGroup.field (r : SubjectTemplateGroup) : Column → Int
  | .pk => r.PK
  | .subject_pk => r.SubjectPK
  | .template_id => r.TemplateID
  | .group_pk => r.GroupPK
  | .expired_at => r.ExpiredAt
  | .created_at => r.CreatedAt

/-- Row with one column overwritten. -/
def SubjectTemplateGroup.setField (r : SubjectTemplateGroup) (c : Column) (v : Int) :
    SubjectTemplateGroup :=
  match c with
  | .pk => { r with PK := v }
  | .subject_pk => { r with SubjectPK := v }
  | .template_id => { r with TemplateID := v }
  | .group_pk => { r with GroupPK := v }
  | .expired_at => { r with ExpiredAt := v }
  | .created_at => { r with CreatedAt := v }

/-- A struct seen through its `db` tags. -/
abbrev Record := Column → Option Int

/-- The tags of `SubjectTemplateGroup`: every column. -/
def SubjectTemplateGroup.tags (r : SubjectTemplateGroup) : Record :=
  fun c => some (r.field c)

/-- The tags of `SubjectRelation`: it has no `template_id`. -/
def SubjectRelation.tags (r : SubjectRelation) : Record
  | .pk => some r.PK
  | .subject_pk => some r.SubjectPK
  | .template_id => none
  | .group_pk => some r.GroupPK
  | .expired_at => some r.ExpiredAt
  | .created_at => some r.CreatedAt

/-! ## Statements -/

/-- A placeholder of a statement: `:tag` or `?`. -/
inductive Placeholder
  | named (tag : Column)
  | question
  deriving DecidableEq, Repr

/-- Comparison of a condition: `=` or `!=`. -/
inductive CmpOp
  | eq
  | ne
  deriving DecidableEq, Repr

/-- One condition `column op placeholder` of a WHERE clause. -/
structure Cond where
  column : Column
  op : CmpOp
  arg : Placeholder
  deriving DecidableEq, Repr

/-- A writing statement. -/
inductive Statement
  | insert (values : List (Column × Placeholder))
  | update (assign : List (Column × Placeholder)) (conds : List Cond)
  | delete (conds : List Cond)
  deriving DecidableEq, Repr

/-- A reading statement `SELECT column FROM subject_template_group WHERE conds LIMIT n`. -/
structure Query where
  column : Column
  conds : List Cond
  limit : Nat
  deriving DecidableEq, Repr

/-- Placeholders of a statement in the order they are written. -/
def Statement.placeholders : Statement → List Placeholder
  | .insert values => values.map Prod.snd
  | .update assign conds => assign.map Prod.snd ++ conds.map Cond.arg
  | .delete conds => conds.map Cond.arg

/-- Errors of the store layer. -/
inductive DBError
  | ErrNoRows
  | emptyArray
  | missingName (tag : Column)
  | argCount (want got : Nat)
  | duplicateEntry
  deriving DecidableEq, Repr

/-- Does a row satisfy one condition, given the value bound to its placeholder. -/
def Cond.holds (c : Cond) (v : Int) (row : SubjectTemplateGroup) : Bool :=
  match c.op with
  | .eq => row.field c.column == v
  | .ne => row.field c.column != v

/-- Does a row satisfy every condition, the values being bound in order. -/
def condsHold (conds : List Cond) (args : List Int) (row : SubjectTemplateGroup) : Bool :=
  (conds.zip args).all (fun cv => cv.1.holds cv.2 row)

/-! ## The store -/

/-- State seen by a transaction. -/
structure Tx where
  table : List SubjectTemplateGroup
  nextPK : Int
  now : Int
  calls : List Statement
  deriving DecidableEq, Repr

/-- What the sources leave open about the bulk helpers of package `database`
(which are not among them): the verdict on a zero-length slice, and the
values they hand to the `?` placeholders of a statement for one struct. -/
structure Helper where
  onEmpty : Option DBError
  questionArgs : Record → List Int

/-- Values for the placeholders of a statement from one struct: a `:tag` takes
the field carrying that tag, a `?` takes the next value the helper supplies
(none when it supplies no more). -/
def bindArgs : List Placeholder → Record → List Int → Except DBError (List Int)
  | [], _, _ => .ok []
  | .named t :: ps, r, qs =>
    match r t with
    | none => .error (.missingName t)
    | some v =>
      match bindArgs ps r qs with
      | .ok vs => .ok (v :: vs)
      | .error e => .error e
  | .question :: ps, r, [] => bindArgs ps r []
  | .question :: ps, r, q :: qs =>
    match bindArgs ps r qs with
    | .ok vs => .ok (q :: vs)
    | .error e => .error e

/-- Argument lists for every struct of a slice; the first failure wins. -/
def bindArray (h : Helper) (stmt : Statement) : List Record → Except DBError (List (List Int))
  | [] => .ok []
  | r :: rs =>
    match bindArgs stmt.placeholders r (h.questionArgs r) with
    | .error e => .error e
    | .ok args =>
      match bindArray h stmt rs with
      | .ok rest => .ok (args :: rest)
      | .error e => .error e

/-- Row built by an INSERT: the listed columns take the bound values, `pk`
and `created_at` come from the store. -/
def insertRow (values : List (Column × Placeholder)) (args : List Int) (tx : Tx) :
    SubjectTemplateGroup :=
  ((values.map Prod.fst).zip args).foldl (fun row cv => row.setField cv.1 cv.2)
    { PK := tx.nextPK, SubjectPK := 0, TemplateID := 0, GroupPK := 0, ExpiredAt := 0,
      CreatedAt := tx.now }

/-- Modelled from the spec: execution of one prepared statement by the
relational store, which is not among the sources.  The argument count must
equal the placeholder count.  UPDATE assigns on every row satisfying all
conditions, DELETE drops every such row, INSERT appends a row and fails on a
duplicate `(subject_pk, template_id, group_pk)`. -/
def exec (stmt : Statement) (args : List Int) (tx : Tx) : Except DBError Tx :=
  if args.length ≠ stmt.placeholders.length then
    .error (.argCount stmt.placeholders.length args.length)
  else
    match stmt with
    | .insert values =>
      let row := insertRow values args tx
      if tx.table.any (fun r => r.SubjectPK == row.SubjectPK && r.TemplateID == row.TemplateID
          && r.GroupPK == row.GroupPK) then
        .error .duplicateEntry
      else
        .ok { tx with table := tx.table ++ [row], nextPK := tx.nextPK + 1 }
    | .update assign conds =>
      let sets := (assign.map Prod.fst).zip (args.take assign.length)
      let wargs := args.drop assign.length
      .ok { tx with table := tx.table.map (fun row =>
              if condsHold conds wargs row then
                sets.foldl (fun r cv => r.setField cv.1 cv.2) row
              else row) }
    | .delete conds =>
      .ok { tx with table := tx.table.filter (fun row => !condsHold conds args row) }

/-- Execute the statement once per argument list, stopping at the first error. -/
def execEach (stmt : Statement) : List (List Int) → Tx → Option DBError × Tx
  | [], tx => (none, tx)
  | args :: rest, tx =>
    match exec stmt args tx with
    | .error e => (some e, tx)
    | .ok tx2 => execEach stmt rest tx2

/-- Modelled from the spec: `database.SqlxBulkUpdateWithTx` is not among the
sources.  The statement is bound once per struct of the slice and executed for
each in order inside the transaction; the verdict on an empty slice is the
helper's. -/
def SqlxBulkUpdateWithTx (h : Helper) (tx : Tx) (stmt : Statement) (args : List Record) :
    Option DBError × Tx :=
  let tx1 := { tx with calls := tx.calls ++ [stmt] }
  if args.length = 0 then (h.onEmpty, tx1)
  else
    match bindArray h stmt args with
    | .error e => (some e, tx1)
    | .ok arrayArgs => execEach stmt arrayArgs tx1

/-- Modelled from the spec: `database.SqlxBulkInsertWithTx` is not among the
sources; it runs the INSERT once per struct of the slice like the bulk update. -/
def SqlxBulkInsertWithTx (h : Helper) (tx : Tx) (stmt : Statement) (args : List Record) :
    Option DBError × Tx :=
  SqlxBulkUpdateWithTx h tx stmt args

/-- Modelled from the spec: `database.SqlxGet` is not among the sources.  It is
the single-row get: the `?` placeholders take the arguments in order, the
first row the store returns is scanned into the destination, and no row at all
is `sql.ErrNoRows` with the destination untouched. -/
def SqlxGet (db : List SubjectTemplateGroup) (dest : Int) (query : Query) (args : List Int) :
    Int × Option DBError :=
  if args.length ≠ query.conds.length then
    (dest, some (.argCount query.conds.length args.length))
  else
    match ((db.filter (condsHold query.conds args)).take query.limit).head? with
    | none => (dest, some .ErrNoRows)
    | some row => (row.field query.column, none)

/-! ## The manager (source lines 42-121) -/

/-- The manager holds the database handle. -/
structure subjectTemplateGroupManager where
  DB : List SubjectTemplateGroup

/-- Statement of `BulkCreateWithTx` (source lines 59-67). -/
def insertSQL : Statement :=
  .insert [(.subject_pk, .named .subject_pk), (.template_id, .named .template_id),
    (.group_pk, .named .group_pk), (.expired_at, .named .expired_at)]

/-- Statement of `BulkUpdateExpiredAtWithTx` (source lines 76-78). -/
def updateExpiredAtSQL : Statement :=
  .update [(.expired_at, .named .expired_at)]
    [⟨.subject_pk, .eq, .named .subject_pk⟩, ⟨.group_pk, .eq, .named .group_pk⟩]

/-- Statement of `BulkDeleteWithTx` (source line 88). -/
def deleteSQL : Statement :=
  .delete [⟨.subject_pk, .eq, .question⟩, ⟨.group_pk, .eq, .question⟩,
    ⟨.template_id, .eq, .question⟩]

/-- Query of `HasRelationExceptTemplate` (source lines 94-100). -/
def hasRelationExceptTemplateSQL : Query :=
  { column := .pk
    conds := [⟨.subject_pk, .eq, .question⟩, ⟨.group_pk, .eq, .question⟩,
      ⟨.template_id, .ne, .question⟩]
    limit := 1 }

/-- Query of `GetExpiredAtBySubjectGroup` (source lines 113-118). -/
def getExpiredAtSQL : Query :=
  { column := .expired_at
    conds := [⟨.subject_pk, .eq, .question⟩, ⟨.group_pk, .eq, .question⟩]
    limit := 1 }

/-- BulkCreateWithTx (source lines 54-69). -/
def BulkCreateWithTx (h : Helper) (tx : Tx) (relations : List SubjectTemplateGroup) :
    Option DBError × Tx :=
  if relations.length = 0 then (none, tx)
  else SqlxBulkInsertWithTx h tx insertSQL (relations.map SubjectTemplateGroup.tags)

/-- BulkUpdateExpiredAtWithTx (source lines 72-80). -/
def BulkUpdateExpiredAtWithTx (h : Helper) (tx : Tx) (relations : List SubjectRelation) :
    Option DBError × Tx :=
  SqlxBulkUpdateWithTx h tx updateExpiredAtSQL (relations.map SubjectRelation.tags)

/-- BulkDeleteWithTx (source lines 83-90). -/
def BulkDeleteWithTx (h : Helper) (tx : Tx) (relations : List SubjectTemplateGroup) :
    Option DBError × Tx :=
  if relations.length = 0 then (none, tx)
  else SqlxBulkUpdateWithTx h tx deleteSQL (relations.map SubjectTemplateGroup.tags)

/-- HasRelationExceptTemplate (source lines 92-109). -/
def HasRelationExceptTemplate (m : subjectTemplateGroupManager)
    (subjectPK groupPK templateID : Int) : Bool × Option DBError :=
  let pk : Int := 0
  let (_, err) := SqlxGet m.DB pk hasRelationExceptTemplateSQL [subjectPK, groupPK, templateID]
  if err = some .ErrNoRows then (false, none)
  else if err ≠ none then (false, err)
  else (true, none)

/-- GetExpiredAtBySubjectGroup (source lines 111-121). -/
def GetExpiredAtBySubjectGroup (m : subjectTemplateGroupManager) (subjectPK groupPK : Int) :
    Int × Option DBError :=
  let expiredAt : Int := 0
  let (expiredAt, err) := SqlxGet m.DB expiredAt getExpiredAtSQL [subjectPK, groupPK]
  (expiredAt, err)

/-! ## Helper instances and sample data -/

/-- A helper that binds by name only: a `?` receives nothing, and a
zero-length slice is refused. -/
def namedBinding : Helper :=
  { onEmpty := some .emptyArray, questionArgs := fun _ => [] }

/-- Row constructor for examples: pk, subject, template, group, expiry. -/
def mkRow (pk s t g e : Int) : SubjectTemplateGroup :=
  { PK := pk, SubjectPK := s, TemplateID := t, GroupPK := g, ExpiredAt := e, CreatedAt := 0 }

/-- Transaction over a table with nothing issued yet. -/
def mkTx (table : List SubjectTemplateGroup) : Tx :=
  { table := table, nextPK := 100, now := 0, calls := [] }

/-! ## Words of the specification -/

/-- Row belongs to the pair `(subject_pk, group_pk)`. -/
def pairMatches (s g : Int) (r : SubjectTemplateGroup) : Bool :=
  r.SubjectPK == s && r.GroupPK == g

/-- Row carries the triple `(subject_pk, template_id, group_pk)` of a relation. -/
def tripleMatches (rel r : SubjectTemplateGroup) : Bool :=
  r.SubjectPK == rel.SubjectPK && r.GroupPK == rel.GroupPK && r.TemplateID == rel.TemplateID

/-- The specification's `max(expired_at)` over all rows of a pair; `none` when
the pair has no row. -/
def maxExpiredAt (table : List SubjectTemplateGroup) (s g : Int) : Option Int :=
  match (table.filter (pairMatches s g)).map SubjectTemplateGroup.ExpiredAt with
  | [] => none
  | e :: es => some (es.foldl max e)

/-- Expiry of a row after the relations of an update were applied in order:
the value of the last relation with the row's pair, else the row's own. -/
def expiryAfter (relations : List SubjectRelation) (row : SubjectTemplateGroup) : Int :=
  relations.foldl
    (fun e rel => if pairMatches rel.SubjectPK rel.GroupPK row then rel.ExpiredAt else e)
    row.ExpiredAt

/-- Fold behind `expiryAfter`, from an arbitrary starting value. -/
def expiryFold (relations : List SubjectRelation) (row : SubjectTemplateGroup) (e : Int) : Int :=
  relations.foldl
    (fun e rel => if pairMatches rel.SubjectPK rel.GroupPK row then rel.ExpiredAt else e) e

end dao

namespace handler

/-! ## Data model of the handlers

The field `Type` of the source is written `Type_`. -/

/-- Modelled from the spec: the serializer declarations are not among the
sources.  A member of a delete, add or filter request is `{type, id}`. -/
structure memberSerializer where
  Type_ : String
  ID : String
  deriving DecidableEq, Repr

/-- Modelled from the spec: a member of a renewal request is
`{type, id, expiresAt}`; the handler reads `Type`, `ID` and `PolicyExpiredAt`. -/
structure memberExpiredAtSerializer where
  Type_ : String
  ID : String
  PolicyExpiredAt : Int
  deriving DecidableEq, Repr

/-- Modelled from the spec: body of `UpdateSubjectMembersExpiredAt`. -/
structure subjectMemberExpiredAtSerializer where
  Type_ : String
  ID : String
  Members : List memberExpiredAtSerializer
  deriving DecidableEq, Repr

/-- Modelled from the spec: body of `DeleteSubjectMembers`. -/
structure deleteSubjectMemberSerializer where
  Type_ : String
  ID : String
  Members : List memberSerializer
  deriving DecidableEq, Repr

/-- Modelled from the spec: body of `BatchAddSubjectMembers`; the expiry is a
field of the body, the members carry none. -/
structure addSubjectMembersSerializer where
  Type_ : String
  ID : String
  PolicyExpiredAt : Int
  Members : List memberSerializer
  deriving DecidableEq, Repr

/-- Modelled from the spec: body of `ListExistSubjectsBeforeExpiredAt`. -/
structure filterSubjectsBeforeExpiredAtSerializer where
  Subjects : List memberSerializer
  BeforeExpiredAt : Int
  deriving DecidableEq, Repr

/-- Modelled from the spec: `pap.GroupMember` with the fields the handlers set. -/
structure GroupMember where
  Type_ : String
  ID : String
  PolicyExpiredAt : Int
  deriving DecidableEq, Repr

/-- Modelled from the spec: `pap.Subject` with the fields the members share. -/
structure Subject where
  Type_ : String
  ID : String
  deriving DecidableEq, Repr

/-- A call on the group controller with its arguments. -/
inductive CtlCall
  | UpdateSubjectMembersExpiredAt (type_ id : String) (members : List GroupMember)
  | DeleteSubjectMembers (type_ id : String) (subjects : List Subject)
  | CreateOrUpdateSubjectMembers (type_ id : String) (members : List GroupMember)
  | ListExistSubjectsBeforeExpiredAt (subjects : List Subject) (beforeExpiredAt : Int)
  deriving DecidableEq, Repr

/-- Data of a success response. -/
inductive Payload
  | empty
  | typeCount (counts : List (String × Int))
  | subjects (subjects : List Subject)
  deriving DecidableEq, Repr

/-- The response a handler writes. -/
inductive Response
  | BadRequest (message : String)
  | SystemError (layer function cause : String)
  | Success (message : String) (data : Payload)
  deriving DecidableEq, Repr

/-- Is the response a bad request. -/
def Response.isBadRequest : Response → Bool
  | .BadRequest _ => true
  | _ => false

/-- What a handler did: the response written and the controller calls made. -/
structure Outcome where
  response : Response
  calls : List CtlCall
  deriving DecidableEq, Repr

/-- Results of the group controller, which is not among the sources. -/
structure GroupController where
  UpdateSubjectMembersExpiredAt : String → String → List GroupMember → Option String
  DeleteSubjectMembers : String → String → List Subject → Except String (List (String × Int))
  CreateOrUpdateSubjectMembers :
    String → String → List GroupMember → Except String (List (String × Int))
  ListExistSubjectsBeforeExpiredAt : List Subject → Int → Except String (List Subject)

/-- Collaborators of the handlers that are not among the sources: the message
of a binding error, the validation steps and the controller. -/
structure Env where
  ValidationErrorMessage : String → String
  ValidateArray : List memberSerializer → Bool × String
  validateExpiredAt : subjectMemberExpiredAtSerializer → Bool × String
  validateAdd : addSubjectMembersSerializer → Bool × String
  validateFilter : filterSubjectsBeforeExpiredAtSerializer → Bool × String
  ctl : GroupController

/-- Copy of the members into subjects, field by field of equal name
(`copier.Copy`). -/
def copySubjects (members : List memberSerializer) : List Subject :=
  members.map (fun m => { Type_ := m.Type_, ID := m.ID })

/-! ## The handlers (source lines 79-175 and 218-247)

`bind` is the result of `c.ShouldBindJSON(&body)`. -/

/-- UpdateSubjectMembersExpiredAt (source lines 80-113). -/
def UpdateSubjectMembersExpiredAt (env : Env)
    (bind : Except String subjectMemberExpiredAtSerializer) : Outcome :=
  match bind with
  | .error err => ⟨.BadRequest (env.ValidationErrorMessage err), []⟩
  | .ok body =>
    let (ok, message) := env.validateExpiredAt body
    if !ok then ⟨.BadRequest message, []⟩
    else
      let papSubjects : List GroupMember :=
        body.Members.foldl
          (fun acc m => acc ++ [{ Type_ := m.Type_, ID := m.ID,
                                  PolicyExpiredAt := m.PolicyExpiredAt }]) []
      let calls := [CtlCall.UpdateSubjectMembersExpiredAt body.Type_ body.ID papSubjects]
      match env.ctl.UpdateSubjectMembersExpiredAt body.Type_ body.ID papSubjects with
      | some err =>
        ⟨.SystemError "Handler" "UpdateSubjectMembersExpiredAt" err, calls⟩
      | none => ⟨.Success "ok" .empty, calls⟩

/-- DeleteSubjectMembers (source lines 116-140). -/
def DeleteSubjectMembers (env : Env) (bind : Except String deleteSubjectMemberSerializer) :
    Outcome :=
  match bind with
  | .error err => ⟨.BadRequest (env.ValidationErrorMessage err), []⟩
  | .ok body =>
    let (valid, message) := env.ValidateArray body.Members
    if !valid then ⟨.BadRequest message, []⟩
    else
      let papSubjects := copySubjects body.Members
      let calls := [CtlCall.DeleteSubjectMembers body.Type_ body.ID papSubjects]
      match env.ctl.DeleteSubjectMembers body.Type_ body.ID papSubjects with
      | .error err => ⟨.SystemError "Handler" "ctl.DeleteSubjectMembers" err, calls⟩
      | .ok typeCount => ⟨.Success "ok" (.typeCount typeCount), calls⟩

/-- BatchAddSubjectMembers (source lines 143-175). -/
def BatchAddSubjectMembers (env : Env) (bind : Except String addSubjectMembersSerializer) :
    Outcome :=
  match bind with
  | .error err => ⟨.BadRequest (env.ValidationErrorMessage err), []⟩
  | .ok body =>
    let (ok, message) := env.validateAdd body
    if !ok then ⟨.BadRequest message, []⟩
    else
      let papSubjects : List GroupMember :=
        body.Members.foldl
          (fun acc m => acc ++ [{ Type_ := m.Type_, ID := m.ID,
                                  PolicyExpiredAt := body.PolicyExpiredAt }]) []
      let calls := [CtlCall.CreateOrUpdateSubjectMembers body.Type_ body.ID papSubjects]
      match env.ctl.CreateOrUpdateSubjectMembers body.Type_ body.ID papSubjects with
      | .error err => ⟨.SystemError "Handler" "BatchAddSubjectMembers" err, calls⟩
      | .ok typeCount => ⟨.Success "ok" (.typeCount typeCount), calls⟩

/-- ListExistSubjectsBeforeExpiredAt (source lines 219-247). -/
def ListExistSubjectsBeforeExpiredAt (env : Env)
    (bind : Except String filterSubjectsBeforeExpiredAtSerializer) : Outcome :=
  match bind with
  | .error err => ⟨.BadRequest (env.ValidationErrorMessage err), []⟩
  | .ok body =>
    let (ok, message) := env.validateFilter body
    if !ok then ⟨.BadRequest message, []⟩
    else
      let papSubjects := copySubjects body.Subjects
      let calls := [CtlCall.ListExistSubjectsBeforeExpiredAt papSubjects body.BeforeExpiredAt]
      match env.ctl.ListExistSubjectsBeforeExpiredAt papSubjects body.BeforeExpiredAt with
      | .error err => ⟨.SystemError "Handler" "FilterSubjectsBeforeExpiredAt" err, calls⟩
      | .ok existSubjects => ⟨.Success "ok" (.subjects existSubjects), calls⟩

/-- Does the request pass binding and the validation step. -/
def accepted {β : Type} (validate : β → Bool × String) (bind : Except String β) : Bool :=
  match bind with
  | .error _ => false
  | .ok body => (validate body).1

/-- A sample environment: binding errors are reported verbatim, a member list
is valid when it is not empty, and the controller succeeds. -/
def sampleEnv : Env :=
  { ValidationErrorMessage := fun e => e
    ValidateArray := fun ms => (!ms.isEmpty, "the array should contain at least 1 item")
    validateExpiredAt := fun b =>
      (!b.Members.isEmpty, "the array should contain at least 1 item")
    validateAdd := fun b => (!b.Members.isEmpty, "the array should contain at least 1 item")
    validateFilter := fun b =>
      (!b.Subjects.isEmpty, "the array should contain at least 1 item")
    ctl :=
      { UpdateSubjectMembersExpiredAt := fun _ _ _ => none
        DeleteSubjectMembers := fun _ _ _ => .ok []
        CreateOrUpdateSubjectMembers := fun _ _ _ => .ok []
        ListExistSubjectsBeforeExpiredAt := fun s _ => .ok s } }

end handler

namespace dao

/-! ## Lemmas on the queries -/

theorem condsHold_getExpiredAt (s g : Int) (r : SubjectTemplateGroup) :
    condsHold getExpiredAtSQL.conds [s, g] r = pairMatches s g r := by
  simp [condsHold, getExpiredAtSQL, Cond.holds, SubjectTemplateGroup.field, pairMatches]

theorem condsHold_hasRelation (s g t : Int) (r : SubjectTemplateGroup) :
    condsHold hasRelationExceptTemplateSQL.conds [s, g, t] r
      = (pairMatches s g r && r.TemplateID != t) := by
  simp [condsHold, hasRelationExceptTemplateSQL, Cond.holds, SubjectTemplateGroup.field,
    pairMatches, Bool.and_assoc]

theorem GetExpiredAt_eq (m : subjectTemplateGroupManager) (s g : Int) :
    GetExpiredAtBySubjectGroup m s g =
      match (m.DB.filter (pairMatches s g)).head? with
      | none => (0, some .ErrNoRows)
      | some row => (row.ExpiredAt, none) := by
  have hf : (condsHold getExpiredAtSQL.conds [s, g]) = pairMatches s g := by
    funext r; exact condsHold_getExpiredAt s g r
  simp only [GetExpiredAtBySubjectGroup, SqlxGet]
  rw [hf]
  simp only [getExpiredAtSQL, List.length_cons, List.length_nil, ne_eq, not_true_eq_false,
    if_false]
  cases hfl : m.DB.filter (pairMatches s g) with
  | nil => simp
  | cons a l => simp [SubjectTemplateGroup.field]

theorem HasRelation_eq (m : subjectTemplateGroupManager) (s g t : Int) :
    HasRelationExceptTemplate m s g t =
      ((m.DB.any (fun r => pairMatches s g r && r.TemplateID != t)), none) := by
  have hf : (condsHold hasRelationExceptTemplateSQL.conds [s, g, t])
      = (fun r => pairMatches s g r && r.TemplateID != t) := by
    funext r; exact condsHold_hasRelation s g t r
  simp only [HasRelationExceptTemplate, SqlxGet]
  rw [hf]
  simp only [hasRelationExceptTemplateSQL, List.length_cons, List.length_nil, ne_eq,
    not_true_eq_false, if_false]
  cases hfl : m.DB.filter (fun r => pairMatches s g r && r.TemplateID != t) with
  | nil =>
    have : m.DB.any (fun r => pairMatches s g r && r.TemplateID != t) = false := by
      rw [List.any_eq_false]
      intro x hx hp
      have : x ∈ m.DB.filter (fun r => pairMatches s g r && r.TemplateID != t) :=
        List.mem_filter.mpr ⟨hx, hp⟩
      rw [hfl] at this
      exact absurd this (List.not_mem_nil _)
    simp [this]
  | cons a l =>
    have ha : a ∈ m.DB.filter (fun r => pairMatches s g r && r.TemplateID != t) := by
      rw [hfl]; exact List.mem_cons_self _ _
    have hany : m.DB.any (fun r => pairMatches s g r && r.TemplateID != t) = true := by
      rw [List.any_eq_true]
      exact ⟨a, (List.mem_filter.mp ha).1, (List.mem_filter.mp ha).2⟩
    simp [hany]

theorem pairMatches_iff (s g : Int) (r : SubjectTemplateGroup) :
    pairMatches s g r = true ↔ r.SubjectPK = s ∧ r.GroupPK = g := by
  simp [pairMatches]

theorem le_foldl_max (es : List Int) (e : Int) : e ≤ es.foldl max e := by
  induction es generalizing e with
  | nil => simp
  | cons x xs ih => exact le_trans (le_max_left e x) (ih (max e x))

theorem mem_le_foldl_max (es : List Int) (e x : Int) (hx : x ∈ es) : x ≤ es.foldl max e := by
  induction es generalizing e with
  | nil => exact absurd hx (List.not_mem_nil _)
  | cons y ys ih =>
    rcases List.mem_cons.mp hx with h | h
    · subst h; exact le_trans (le_max_right e x) (le_foldl_max ys (max e x))
    · exact ih (max e y) h

theorem foldl_max_const (es : List Int) (e : Int) (h : ∀ x ∈ es, x = e) :
    es.foldl max e = e := by
  induction es with
  | nil => rfl
  | cons y ys ih =>
    have hy : y = e := h y (List.mem_cons_self _ _)
    subst hy
    simp only [List.foldl_cons, max_self]
    exact ih (fun x hx => h x (List.mem_cons_of_mem _ hx))

/-! ## Lemmas on the bulk update -/

theorem pairMatches_setExpiredAt (s g e : Int) (row : SubjectTemplateGroup) :
    pairMatches s g { row with ExpiredAt := e } = pairMatches s g row := rfl

theorem bindArgs_update (rel : SubjectRelation) (qs : List Int) :
    bindArgs updateExpiredAtSQL.placeholders rel.tags qs
      = .ok [rel.ExpiredAt, rel.SubjectPK, rel.GroupPK] := by
  simp [updateExpiredAtSQL, Statement.placeholders, bindArgs, SubjectRelation.tags]

theorem bindArray_update (h : Helper) (relations : List SubjectRelation) :
    bindArray h updateExpiredAtSQL (relations.map SubjectRelation.tags)
      = .ok (relations.map (fun rel => [rel.ExpiredAt, rel.SubjectPK, rel.GroupPK])) := by
  induction relations with
  | nil => rfl
  | cons rel rest ih =>
    simp only [List.map_cons, bindArray, bindArgs_update, ih]

theorem exec_update (e s g : Int) (tx : Tx) :
    exec updateExpiredAtSQL [e, s, g] tx
      = .ok { tx with table := tx.table.map (fun row =>
          if pairMatches s g row then { row with ExpiredAt := e } else row) } := by
  simp [exec, updateExpiredAtSQL, Statement.placeholders, condsHold, Cond.holds,
    SubjectTemplateGroup.field, SubjectTemplateGroup.setField, pairMatches]

theorem expiryAfter_eq_fold (relations : List SubjectRelation) (row : SubjectTemplateGroup) :
    expiryAfter relations row = expiryFold relations row row.ExpiredAt := rfl

theorem expiryFold_setExpiredAt (relations : List SubjectRelation) (row : SubjectTemplateGroup)
    (e e0 : Int) :
    expiryFold relations { row with ExpiredAt := e } e0 = expiryFold relations row e0 := rfl

theorem execEach_update (relations : List SubjectRelation) (tx : Tx) :
    execEach updateExpiredAtSQL
        (relations.map (fun rel => [rel.ExpiredAt, rel.SubjectPK, rel.GroupPK])) tx
      = (none, { tx with table := tx.table.map (fun row =>
          { row with ExpiredAt := expiryAfter relations row }) }) := by
  induction relations generalizing tx with
  | nil =>
    simp only [List.map_nil, execEach, expiryAfter, List.foldl_nil]
    congr 1
    have : (tx.table.map fun row : SubjectTemplateGroup => { row with ExpiredAt := row.ExpiredAt })
        = tx.table := by
      conv_rhs => rw [← List.map_id tx.table]
      rfl
    rw [this]
  | cons rel rest ih =>
    simp only [List.map_cons, execEach, exec_update, ih, List.map_map]
    congr 2
    apply List.map_congr_left
    intro row _
    simp only [Function.comp, expiryAfter_eq_fold]
    by_cases hp : pairMatches rel.SubjectPK rel.GroupPK row = true
    · simp only [hp, if_true, expiryFold_setExpiredAt]
      simp [expiryFold, List.foldl_cons, hp]
    · simp only [hp]
      simp [expiryFold, List.foldl_cons, hp]

theorem BulkUpdateExpiredAt_eq (h : Helper) (tx : Tx) (relations : List SubjectRelation)
    (hne : relations ≠ []) :
    BulkUpdateExpiredAtWithTx h tx relations
      = (none, { tx with
          calls := tx.calls ++ [updateExpiredAtSQL]
          table := tx.table.map (fun row =>
            { row with ExpiredAt := expiryAfter relations row }) }) := by
  have hlen : ¬ (relations.map SubjectRelation.tags).length = 0 := by
    simpa using hne
  simp only [BulkUpdateExpiredAtWithTx, SqlxBulkUpdateWithTx, hlen, if_false, bindArray_update,
    execEach_update]

theorem expiryFold_unmatched (relations : List SubjectRelation) (row : SubjectTemplateGroup)
    (e : Int)
    (hno : ∀ rel ∈ relations, pairMatches rel.SubjectPK rel.GroupPK row = false) :
    expiryFold relations row e = e := by
  induction relations generalizing e with
  | nil => rfl
  | cons rel rest ih =>
    have h1 := hno rel (List.mem_cons_self _ _)
    simp only [expiryFold, List.foldl_cons, h1]
    exact ih e (fun r hr => hno r (List.mem_cons_of_mem _ hr))

theorem expiryFold_matched (relations : List SubjectRelation) (row : SubjectTemplateGroup)
    (e v : Int)
    (hsome : ∃ rel ∈ relations, pairMatches rel.SubjectPK rel.GroupPK row = true)
    (hval : ∀ rel ∈ relations, pairMatches rel.SubjectPK rel.GroupPK row = true →
      rel.ExpiredAt = v) :
    expiryFold relations row e = v := by
  induction relations generalizing e with
  | nil => obtain ⟨rel, hrel, _⟩ := hsome; exact absurd hrel (List.not_mem_nil _)
  | cons rel rest ih =>
    simp only [expiryFold, List.foldl_cons]
    by_cases hp : pairMatches rel.SubjectPK rel.GroupPK row = true
    · have hv := hval rel (List.mem_cons_self _ _) hp
      simp only [hp, if_true, hv]
      by_cases hrest : ∃ r ∈ rest, pairMatches r.SubjectPK r.GroupPK row = true
      · exact ih v hrest (fun r hr => hval r (List.mem_cons_of_mem _ hr))
      · have hno : ∀ r ∈ rest, pairMatches r.SubjectPK r.GroupPK row = false := by
          intro r hr
          cases hq : pairMatches r.SubjectPK r.GroupPK row with
          | false => rfl
          | true => exact absurd ⟨r, hr, hq⟩ hrest
        exact expiryFold_unmatched rest row v hno
    · have hp2 : pairMatches rel.SubjectPK rel.GroupPK row = false := by
        cases hq : pairMatches rel.SubjectPK rel.GroupPK row with
        | false => rfl
        | true => exact absurd hq hp
      simp only [hp2]
      obtain ⟨r, hr, hq⟩ := hsome
      rcases List.mem_cons.mp hr with h1 | h1
      · subst h1; rw [hp2] at hq; cases hq
      · exact ih e ⟨r, h1, hq⟩ (fun r hr => hval r (List.mem_cons_of_mem _ hr))

/-! ## Lemmas on the bulk delete -/

theorem bindArgs_delete_none (r : Record) :
    bindArgs deleteSQL.placeholders r [] = .ok [] := by
  simp [deleteSQL, Statement.placeholders, bindArgs]

theorem exec_delete_none (tx : Tx) :
    exec deleteSQL [] tx = .error (.argCount 3 0) := by
  simp [exec, deleteSQL, Statement.placeholders]

theorem bindArray_delete_named (relations : List SubjectTemplateGroup) :
    bindArray namedBinding deleteSQL (relations.map SubjectTemplateGroup.tags)
      = .ok (relations.map (fun _ => [])) := by
  induction relations with
  | nil => rfl
  | cons rel rest ih =>
    simp only [List.map_cons, bindArray, namedBinding, bindArgs_delete_none]
    simp only [namedBinding] at ih
    rw [ih]

/-! ## The first row of a pair -/

theorem first_row_facts (m : subjectTemplateGroupManager) (s g : Int)
    (hex : ∃ r ∈ m.DB, r.SubjectPK = s ∧ r.GroupPK = g) :
    ∃ row mx, (m.DB.filter (pairMatches s g)).head? = some row
      ∧ GetExpiredAtBySubjectGroup m s g = (row.ExpiredAt, none)
      ∧ row ∈ m.DB ∧ row.SubjectPK = s ∧ row.GroupPK = g
      ∧ maxExpiredAt m.DB s g = some mx
      ∧ row.ExpiredAt ≤ mx
      ∧ (∀ r ∈ m.DB, r.SubjectPK = s → r.GroupPK = g → r.ExpiredAt ≤ mx)
      ∧ ((∀ r ∈ m.DB, r.SubjectPK = s → r.GroupPK = g → r.ExpiredAt = row.ExpiredAt)
          → row.ExpiredAt = mx) := by
  obtain ⟨r0, hr0, hs0, hg0⟩ := hex
  have hmem0 : r0 ∈ m.DB.filter (pairMatches s g) :=
    List.mem_filter.mpr ⟨hr0, (pairMatches_iff s g r0).mpr ⟨hs0, hg0⟩⟩
  cases hfl : m.DB.filter (pairMatches s g) with
  | nil => rw [hfl] at hmem0; exact absurd hmem0 (List.not_mem_nil _)
  | cons a l =>
    have ha : a ∈ m.DB.filter (pairMatches s g) := by rw [hfl]; exact List.mem_cons_self _ _
    have ha2 := List.mem_filter.mp ha
    have hpa := (pairMatches_iff s g a).mp ha2.2
    refine ⟨a, (l.map SubjectTemplateGroup.ExpiredAt).foldl max a.ExpiredAt, rfl, ?_, ha2.1,
      hpa.1, hpa.2, ?_, le_foldl_max _ _, ?_, ?_⟩
    · rw [GetExpiredAt_eq, hfl]; rfl
    · simp [maxExpiredAt, hfl]
    · intro r hr hs hg
      have hrm : r ∈ m.DB.filter (pairMatches s g) :=
        List.mem_filter.mpr ⟨hr, (pairMatches_iff s g r).mpr ⟨hs, hg⟩⟩
      rw [hfl] at hrm
      rcases List.mem_cons.mp hrm with h1 | h1
      · subst h1; exact le_foldl_max _ _
      · exact mem_le_foldl_max _ _ _ (List.mem_map_of_mem _ h1)
    · intro hall
      symm
      apply foldl_max_const
      intro x hx
      obtain ⟨r, hr, rfl⟩ := List.mem_map.mp hx
      have hrm : r ∈ m.DB.filter (pairMatches s g) := by
        rw [hfl]; exact List.mem_cons_of_mem _ hr
      have hr2 := List.mem_filter.mp hrm
      have hpr := (pairMatches_iff s g r).mp hr2.2
      exact hall r hr2.1 hpr.1 hpr.2

theorem no_row_facts (m : subjectTemplateGroupManager) (s g : Int)
    (hno : ¬ ∃ r ∈ m.DB, r.SubjectPK = s ∧ r.GroupPK = g) :
    GetExpiredAtBySubjectGroup m s g = (0, some .ErrNoRows) := by
  cases hfl : m.DB.filter (pairMatches s g) with
  | nil => rw [GetExpiredAt_eq, hfl]; rfl
  | cons a l =>
    have ha : a ∈ m.DB.filter (pairMatches s g) := by rw [hfl]; exact List.mem_cons_self _ _
    have ha2 := List.mem_filter.mp ha
    have hpa := (pairMatches_iff s g a).mp ha2.2
    exact absurd ⟨a, ha2.1, hpa.1, hpa.2⟩ hno

theorem hasRelation_true_iff (m : subjectTemplateGroupManager) (s g t : Int) :
    HasRelationExceptTemplate m s g t = (true, none)
      ↔ ∃ r ∈ m.DB, r.SubjectPK = s ∧ r.GroupPK = g ∧ r.TemplateID ≠ t := by
  rw [HasRelation_eq]
  constructor
  · intro hh
    have hany : m.DB.any (fun r => pairMatches s g r && r.TemplateID != t) = true :=
      congrArg Prod.fst hh
    obtain ⟨r, hr, hp⟩ := List.any_eq_true.mp hany
    simp only [Bool.and_eq_true, bne_iff_ne, ne_eq, pairMatches_iff] at hp
    exact ⟨r, hr, hp.1.1, hp.1.2, hp.2⟩
  · rintro ⟨r, hr, hs, hg, ht⟩
    have hany : m.DB.any (fun r => pairMatches s g r && r.TemplateID != t) = true := by
      rw [List.any_eq_true]
      refine ⟨r, hr, ?_⟩
      simp only [Bool.and_eq_true, bne_iff_ne, ne_eq, pairMatches_iff]
      exact ⟨⟨hs, hg⟩, ht⟩
    rw [hany]

theorem hasRelation_false_iff (m : subjectTemplateGroupManager) (s g t : Int) :
    HasRelationExceptTemplate m s g t = (false, none)
      ↔ ¬ ∃ r ∈ m.DB, r.SubjectPK = s ∧ r.GroupPK = g ∧ r.TemplateID ≠ t := by
  rw [← hasRelation_true_iff, HasRelation_eq]
  cases m.DB.any (fun r => pairMatches s g r && r.TemplateID != t) <;> simp

theorem expiryAfter_last (pre post : List SubjectRelation) (rel : SubjectRelation)
    (row : SubjectTemplateGroup)
    (hrel : rel.SubjectPK = row.SubjectPK ∧ rel.GroupPK = row.GroupPK)
    (hpost : ∀ r ∈ post, ¬ (r.SubjectPK = row.SubjectPK ∧ r.GroupPK = row.GroupPK)) :
    expiryAfter (pre ++ rel :: post) row = rel.ExpiredAt := by
  have hp : pairMatches rel.SubjectPK rel.GroupPK row = true :=
    (pairMatches_iff _ _ _).mpr ⟨hrel.1.symm, hrel.2.symm⟩
  have hno : ∀ r ∈ post, pairMatches r.SubjectPK r.GroupPK row = false := by
    intro r hr
    cases hq : pairMatches r.SubjectPK r.GroupPK row with
    | false => rfl
    | true =>
      have := (pairMatches_iff _ _ _).mp hq
      exact absurd ⟨this.1.symm, this.2.symm⟩ (hpost r hr)
  have := expiryFold_unmatched post row rel.ExpiredAt hno
  simp only [expiryFold] at this
  simp only [expiryAfter, List.foldl_append, List.foldl_cons, hp, if_true]
  exact this

theorem expiryAfter_unmatched (relations : List SubjectRelation) (row : SubjectTemplateGroup)
    (hno : ∀ rel ∈ relations, ¬ (rel.SubjectPK = row.SubjectPK ∧ rel.GroupPK = row.GroupPK)) :
    expiryAfter relations row = row.ExpiredAt := by
  rw [expiryAfter_eq_fold]
  apply expiryFold_unmatched
  intro r hr
  cases hq : pairMatches r.SubjectPK r.GroupPK row with
  | false => rfl
  | true =>
    have := (pairMatches_iff _ _ _).mp hq
    exact absurd ⟨this.1.symm, this.2.symm⟩ (hno r hr)

theorem BulkDelete_named (tx : Tx) (relations : List SubjectTemplateGroup)
    (hne : relations ≠ []) :
    BulkDeleteWithTx namedBinding tx relations
      = (some (.argCount 3 0), { tx with calls := tx.calls ++ [deleteSQL] }) := by
  have hlen : ¬ relations.length = 0 := by simpa using hne
  have hlen2 : ¬ (relations.map SubjectTemplateGroup.tags).length = 0 := by simpa using hne
  simp only [BulkDeleteWithTx, SqlxBulkUpdateWithTx, hlen, hlen2, if_false,
    bindArray_delete_named]
  cases relations with
  | nil => exact absurd rfl hne
  | cons rel rest => simp only [List.map_cons, execEach, exec_delete_none]
/-! ## Claims on the queries -/

/-- C1 (as stated, refuted): with two rows of the pair (5, 100) expiring at 10
and at 20, in that store order, `GetExpiredAtBySubjectGroup` returns 10 while
the maximum over the pair's rows is 20. -/
theorem GetExpiredAtBySubjectGroup_not_max :
    GetExpiredAtBySubjectGroup ⟨[mkRow 1 5 7 100 10, mkRow 2 5 8 100 20]⟩ 5 100 = (10, none)
      ∧ maxExpiredAt [mkRow 1 5 7 100 10, mkRow 2 5 8 100 20] 5 100 = some 20
      ∧ (GetExpiredAtBySubjectGroup ⟨[mkRow 1 5 7 100 10, mkRow 2 5 8 100 20]⟩ 5 100).1
          ≠ 20 := by
  decide

/-- C1 (amended): when the pair has a row, `GetExpiredAtBySubjectGroup` succeeds
with the `expired_at` of the first row of the pair in store order.  That value
belongs to a row of the pair, is at most the maximum over the pair's rows (which
bounds every row of the pair), and equals the maximum when all rows of the pair
carry the same `expired_at`. -/
theorem GetExpiredAtBySubjectGroup_first_row (m : subjectTemplateGroupManager) (s g : Int)
    (hex : ∃ r ∈ m.DB, r.SubjectPK = s ∧ r.GroupPK = g) :
    ∃ row mx, (m.DB.filter (pairMatches s g)).head? = some row
      ∧ GetExpiredAtBySubjectGroup m s g = (row.ExpiredAt, none)
      ∧ row ∈ m.DB ∧ row.SubjectPK = s ∧ row.GroupPK = g
      ∧ maxExpiredAt m.DB s g = some mx
      ∧ row.ExpiredAt ≤ mx
      ∧ (∀ r ∈ m.DB, r.SubjectPK = s → r.GroupPK = g → r.ExpiredAt ≤ mx)
      ∧ ((∀ r ∈ m.DB, r.SubjectPK = s → r.GroupPK = g → r.ExpiredAt = row.ExpiredAt)
          → row.ExpiredAt = mx) :=
  first_row_facts m s g hex

/-- C1 (witness): the amended statement at a table holding two templates' rows
of the pair (5, 100) and a row of another pair. -/
theorem GetExpiredAtBySubjectGroup_first_row_witness :
    (∃ r ∈ [mkRow 1 6 7 100 3, mkRow 2 5 7 100 10, mkRow 3 5 8 100 20],
        r.SubjectPK = 5 ∧ r.GroupPK = 100)
      ∧ ∃ row mx,
        (([mkRow 1 6 7 100 3, mkRow 2 5 7 100 10, mkRow 3 5 8 100 20] :
            List SubjectTemplateGroup).filter (pairMatches 5 100)).head? = some row
        ∧ GetExpiredAtBySubjectGroup
            ⟨[mkRow 1 6 7 100 3, mkRow 2 5 7 100 10, mkRow 3 5 8 100 20]⟩ 5 100
            = (row.ExpiredAt, none)
        ∧ row ∈ [mkRow 1 6 7 100 3, mkRow 2 5 7 100 10, mkRow 3 5 8 100 20]
        ∧ row.SubjectPK = 5 ∧ row.GroupPK = 100
        ∧ maxExpiredAt [mkRow 1 6 7 100 3, mkRow 2 5 7 100 10, mkRow 3 5 8 100 20] 5 100
            = some mx
        ∧ row.ExpiredAt ≤ mx
        ∧ (∀ r ∈ [mkRow 1 6 7 100 3, mkRow 2 5 7 100 10, mkRow 3 5 8 100 20],
            r.SubjectPK = 5 → r.GroupPK = 100 → r.ExpiredAt ≤ mx)
        ∧ ((∀ r ∈ [mkRow 1 6 7 100 3, mkRow 2 5 7 100 10, mkRow 3 5 8 100 20],
              r.SubjectPK = 5 → r.GroupPK = 100 → r.ExpiredAt = row.ExpiredAt)
            → row.ExpiredAt = mx) :=
  ⟨⟨mkRow 2 5 7 100 10, by decide, by decide⟩,
    GetExpiredAtBySubjectGroup_first_row
      ⟨[mkRow 1 6 7 100 3, mkRow 2 5 7 100 10, mkRow 3 5 8 100 20]⟩ 5 100
      ⟨mkRow 2 5 7 100 10, by decide, by decide⟩⟩

/-- C2: `HasRelationExceptTemplate` returns `(true, nil)` exactly when the table
holds a row of the pair whose `template_id` differs from `templateID`, and
`(false, nil)`, never an error, exactly when it holds none. -/
theorem HasRelationExceptTemplate_iff (m : subjectTemplateGroupManager) (s g t : Int) :
    (HasRelationExceptTemplate m s g t = (true, none)
        ↔ ∃ r ∈ m.DB, r.SubjectPK = s ∧ r.GroupPK = g ∧ r.TemplateID ≠ t)
      ∧ (HasRelationExceptTemplate m s g t = (false, none)
        ↔ ¬ ∃ r ∈ m.DB, r.SubjectPK = s ∧ r.GroupPK = g ∧ r.TemplateID ≠ t)
      ∧ (HasRelationExceptTemplate m s g t).2 = none := by
  refine ⟨hasRelation_true_iff m s g t, hasRelation_false_iff m s g t, ?_⟩
  rw [HasRelation_eq]

/-- C2 (witness): the only rows of the pair (5, 100) belong to template 7
itself, so the answer for template 7 is `(false, nil)`; for template 8 it is
`(true, nil)`. -/
theorem HasRelationExceptTemplate_iff_witness :
    HasRelationExceptTemplate ⟨[mkRow 1 5 7 100 10, mkRow 2 6 8 100 10]⟩ 5 100 7 = (false, none)
      ∧ HasRelationExceptTemplate ⟨[mkRow 1 5 7 100 10, mkRow 2 6 8 100 10]⟩ 5 100 8
          = (true, none) :=
  ⟨(HasRelationExceptTemplate_iff ⟨[mkRow 1 5 7 100 10, mkRow 2 6 8 100 10]⟩ 5 100 7).2.1.mpr
      (by decide),
   (HasRelationExceptTemplate_iff ⟨[mkRow 1 5 7 100 10, mkRow 2 6 8 100 10]⟩ 5 100 8).1.mpr
      (by decide)⟩

/-- C6: `GetExpiredAtBySubjectGroup` returns the no-rows error exactly when the
table holds no row of the pair, it returns no other error, and when the pair
has a row it returns a nil error with the `expired_at` of a row of that pair. -/
theorem GetExpiredAtBySubjectGroup_not_found_iff (m : subjectTemplateGroupManager)
    (s g : Int) :
    ((GetExpiredAtBySubjectGroup m s g).2 = some .ErrNoRows
        ↔ ¬ ∃ r ∈ m.DB, r.SubjectPK = s ∧ r.GroupPK = g)
      ∧ ((GetExpiredAtBySubjectGroup m s g).2 ≠ none
        ↔ ¬ ∃ r ∈ m.DB, r.SubjectPK = s ∧ r.GroupPK = g)
      ∧ ((∃ r ∈ m.DB, r.SubjectPK = s ∧ r.GroupPK = g) →
          (GetExpiredAtBySubjectGroup m s g).2 = none
          ∧ ∃ r ∈ m.DB, r.SubjectPK = s ∧ r.GroupPK = g
              ∧ (GetExpiredAtBySubjectGroup m s g).1 = r.ExpiredAt) := by
  by_cases hex : ∃ r ∈ m.DB, r.SubjectPK = s ∧ r.GroupPK = g
  · obtain ⟨row, mx, _, hget, hmem, hs, hg, _⟩ := first_row_facts m s g hex
    refine ⟨?_, ?_, ?_⟩
    · rw [hget]; simp [hex]
    · rw [hget]; simp [hex]
    · intro _
      rw [hget]
      exact ⟨rfl, row, hmem, hs, hg, rfl⟩
  · have hget := no_row_facts m s g hex
    refine ⟨?_, ?_, ?_⟩
    · rw [hget]; simp [hex]
    · rw [hget]; simp [hex]
    · intro h; exact absurd h hex

/-- C6 (witness): a pair without a row gives the no-rows error, a pair with a
row gives a nil error and that row's expiry. -/
theorem GetExpiredAtBySubjectGroup_not_found_iff_witness :
    (GetExpiredAtBySubjectGroup ⟨[mkRow 1 5 7 100 10]⟩ 6 100).2 = some .ErrNoRows
      ∧ ((GetExpiredAtBySubjectGroup ⟨[mkRow 1 5 7 100 10]⟩ 5 100).2 = none
        ∧ ∃ r ∈ [mkRow 1 5 7 100 10], r.SubjectPK = 5 ∧ r.GroupPK = 100
            ∧ (GetExpiredAtBySubjectGroup ⟨[mkRow 1 5 7 100 10]⟩ 5 100).1 = r.ExpiredAt) :=
  ⟨(GetExpiredAtBySubjectGroup_not_found_iff ⟨[mkRow 1 5 7 100 10]⟩ 6 100).1.mpr (by decide),
   (GetExpiredAtBySubjectGroup_not_found_iff ⟨[mkRow 1 5 7 100 10]⟩ 5 100).2.2
      ⟨mkRow 1 5 7 100 10, by decide, by decide⟩⟩

/-! ## Claims on the bulk operations -/

/-- C5: for a non-empty list, `BulkUpdateExpiredAtWithTx` succeeds, keeps the
number and order of rows and every column but `expired_at`, leaves a row whose
pair matches no relation unchanged, and gives a row whose pair matches a
relation the `expired_at` of that relation whatever the row's `template_id`
(of the last such relation of the list when several match). -/
theorem BulkUpdateExpiredAtWithTx_by_pair (h : Helper) (tx : Tx)
    (relations : List SubjectRelation) (hne : relations ≠ []) :
    (BulkUpdateExpiredAtWithTx h tx relations).1 = none
      ∧ (BulkUpdateExpiredAtWithTx h tx relations).2.table
          = tx.table.map (fun row => { row with ExpiredAt := expiryAfter relations row })
      ∧ (BulkUpdateExpiredAtWithTx h tx relations).2.table.length = tx.table.length
      ∧ (∀ row : SubjectTemplateGroup,
          (∀ rel ∈ relations,
            ¬ (rel.SubjectPK = row.SubjectPK ∧ rel.GroupPK = row.GroupPK)) →
          { row with ExpiredAt := expiryAfter relations row } = row)
      ∧ (∀ (row : SubjectTemplateGroup) (pre post : List SubjectRelation)
          (rel : SubjectRelation), relations = pre ++ rel :: post →
          (rel.SubjectPK = row.SubjectPK ∧ rel.GroupPK = row.GroupPK) →
          (∀ r ∈ post, ¬ (r.SubjectPK = row.SubjectPK ∧ r.GroupPK = row.GroupPK)) →
          expiryAfter relations row = rel.ExpiredAt) := by
  rw [BulkUpdateExpiredAt_eq h tx relations hne]
  refine ⟨rfl, rfl, by simp, ?_, ?_⟩
  · intro row hno
    rw [expiryAfter_unmatched relations row hno]
  · intro row pre post rel heq hrel hpost
    rw [heq]
    exact expiryAfter_last pre post rel row hrel hpost

/-- C5 (witness): one relation for the pair (5, 100) rewrites the rows of both
templates 7 and 8 of that pair and leaves the row of pair (6, 100) alone. -/
theorem BulkUpdateExpiredAtWithTx_by_pair_witness :
    ([⟨0, 5, 100, 99, 0⟩] : List SubjectRelation) ≠ []
      ∧ (BulkUpdateExpiredAtWithTx namedBinding
        (mkTx [mkRow 1 5 7 100 10, mkRow 2 5 8 100 20, mkRow 3 6 7 100 30])
        [⟨0, 5, 100, 99, 0⟩]).1 = none
      ∧ (BulkUpdateExpiredAtWithTx namedBinding
        (mkTx [mkRow 1 5 7 100 10, mkRow 2 5 8 100 20, mkRow 3 6 7 100 30])
        [⟨0, 5, 100, 99, 0⟩]).2.table
          = [mkRow 1 5 7 100 99, mkRow 2 5 8 100 99, mkRow 3 6 7 100 30] :=
  ⟨by decide,
   (BulkUpdateExpiredAtWithTx_by_pair namedBinding
      (mkTx [mkRow 1 5 7 100 10, mkRow 2 5 8 100 20, mkRow 3 6 7 100 30])
      [⟨0, 5, 100, 99, 0⟩] (by decide)).1,
   ((BulkUpdateExpiredAtWithTx_by_pair namedBinding
      (mkTx [mkRow 1 5 7 100 10, mkRow 2 5 8 100 20, mkRow 3 6 7 100 30])
      [⟨0, 5, 100, 99, 0⟩] (by decide)).2.1).trans (by decide)⟩

/-- C4 (the code at the failing input): the DELETE has three `?` placeholders
and no `:tag`, so a helper binding by name hands it no value; for every
non-empty list the first execution fails on the argument count, no row is
removed and the error is returned. -/
theorem BulkDeleteWithTx_binds_nothing_by_name (tx : Tx)
    (relations : List SubjectTemplateGroup) (hne : relations ≠ []) :
    BulkDeleteWithTx namedBinding tx relations
        = (some (.argCount 3 0), { tx with calls := tx.calls ++ [deleteSQL] })
      ∧ (BulkDeleteWithTx namedBinding tx relations).2.table = tx.table
      ∧ ∀ rel ∈ relations,
          bindArgs deleteSQL.placeholders rel.tags (namedBinding.questionArgs rel.tags)
            = .ok [] := by
  rw [BulkDelete_named tx relations hne]
  exact ⟨rfl, rfl, fun rel _ => bindArgs_delete_none rel.tags⟩

/-- C4 (witness): deleting the relation (1, 2, 3) from a table holding exactly
that row returns the argument-count error and keeps the row. -/
theorem BulkDeleteWithTx_binds_nothing_by_name_witness :
    ([mkRow 0 1 2 3 0] : List SubjectTemplateGroup) ≠ []
      ∧ (BulkDeleteWithTx namedBinding (mkTx [mkRow 1 1 2 3 10]) [mkRow 0 1 2 3 0]).1
          = some (.argCount 3 0)
      ∧ (BulkDeleteWithTx namedBinding (mkTx [mkRow 1 1 2 3 10]) [mkRow 0 1 2 3 0]).2.table
          = [mkRow 1 1 2 3 10] :=
  ⟨by decide,
   congrArg Prod.fst (BulkDeleteWithTx_binds_nothing_by_name (mkTx [mkRow 1 1 2 3 10])
      [mkRow 0 1 2 3 0] (by decide)).1,
   (BulkDeleteWithTx_binds_nothing_by_name (mkTx [mkRow 1 1 2 3 10])
      [mkRow 0 1 2 3 0] (by decide)).2.1⟩

/-- C8: on an empty list `BulkCreateWithTx` and `BulkDeleteWithTx` return nil and
leave the transaction as it was: no statement reaches the helpers and the
table is unchanged, whatever the helpers would do. -/
theorem BulkCreate_BulkDelete_empty (h : Helper) (tx : Tx) :
    BulkCreateWithTx h tx [] = (none, tx)
      ∧ BulkDeleteWithTx h tx [] = (none, tx)
      ∧ (BulkCreateWithTx h tx []).2.calls = tx.calls
      ∧ (BulkDeleteWithTx h tx []).2.calls = tx.calls
      ∧ (BulkCreateWithTx h tx []).2.table = tx.table
      ∧ (BulkDeleteWithTx h tx []).2.table = tx.table :=
  ⟨rfl, rfl, rfl, rfl, rfl, rfl⟩

/-- C9 (the code at the failing input): `BulkUpdateExpiredAtWithTx` has no guard
on an empty list; the statement reaches the bulk helper and the result is the
helper's verdict on a zero-length slice.  With a helper that refuses such a
slice the update returns that error, where `BulkCreateWithTx` and
`BulkDeleteWithTx` return nil without a call.  The table is unchanged. -/
theorem BulkUpdateExpiredAtWithTx_empty_unguarded (h : Helper) (tx : Tx) :
    BulkUpdateExpiredAtWithTx h tx []
        = (h.onEmpty, { tx with calls := tx.calls ++ [updateExpiredAtSQL] })
      ∧ BulkUpdateExpiredAtWithTx namedBinding tx []
        = (some .emptyArray, { tx with calls := tx.calls ++ [updateExpiredAtSQL] })
      ∧ (BulkUpdateExpiredAtWithTx h tx []).2.table = tx.table
      ∧ (BulkUpdateExpiredAtWithTx h tx []).2.calls ≠ tx.calls
      ∧ (BulkDeleteWithTx namedBinding tx []).1 = none
      ∧ (BulkCreateWithTx namedBinding tx []).1 = none := by
  refine ⟨rfl, rfl, rfl, ?_, rfl, rfl⟩
  show tx.calls ++ [updateExpiredAtSQL] ≠ tx.calls
  intro hc
  have := congrArg List.length hc
  simp at this

/-! ## Claim on template revocation -/

/-- C3 (as stated, refuted): subject 5 holds group 100 through templates 7, 8
and 9, expiring at 1, 5 and 9.  `BulkDeleteWithTx` of template 7's relation
returns an error and leaves the table as it was; `HasRelationExceptTemplate` is
true, and `GetExpiredAtBySubjectGroup` returns 1 while the maximum over the rows
of the pair is 9.  The maximum is 9 over the rows of templates 8 and 9 alone as
well, and on those two rows the query returns 5. -/
theorem revoke_template_not_max :
    (BulkDeleteWithTx namedBinding
        (mkTx [mkRow 1 5 7 100 1, mkRow 2 5 8 100 5, mkRow 3 5 9 100 9])
        [mkRow 0 5 7 100 0]).1 = some (.argCount 3 0)
      ∧ (BulkDeleteWithTx namedBinding
          (mkTx [mkRow 1 5 7 100 1, mkRow 2 5 8 100 5, mkRow 3 5 9 100 9])
          [mkRow 0 5 7 100 0]).2.table
          = [mkRow 1 5 7 100 1, mkRow 2 5 8 100 5, mkRow 3 5 9 100 9]
      ∧ HasRelationExceptTemplate
          ⟨[mkRow 1 5 7 100 1, mkRow 2 5 8 100 5, mkRow 3 5 9 100 9]⟩ 5 100 7 = (true, none)
      ∧ GetExpiredAtBySubjectGroup
          ⟨[mkRow 1 5 7 100 1, mkRow 2 5 8 100 5, mkRow 3 5 9 100 9]⟩ 5 100 = (1, none)
      ∧ maxExpiredAt [mkRow 1 5 7 100 1, mkRow 2 5 8 100 5, mkRow 3 5 9 100 9] 5 100 = some 9
      ∧ ([mkRow 1 5 7 100 1, mkRow 2 5 8 100 5, mkRow 3 5 9 100 9].filter
          (fun row => !tripleMatches (mkRow 0 5 7 100 0) row))
          = [mkRow 2 5 8 100 5, mkRow 3 5 9 100 9]
      ∧ maxExpiredAt [mkRow 2 5 8 100 5, mkRow 3 5 9 100 9] 5 100 = some 9
      ∧ GetExpiredAtBySubjectGroup ⟨[mkRow 2 5 8 100 5, mkRow 3 5 9 100 9]⟩ 5 100
          = (5, none) := by
  decide

/-- C3 (amended): on the table the two queries read, whatever brought it
there.  If a row of the pair under a template other than `a` exists,
`HasRelationExceptTemplate` is true and `GetExpiredAtBySubjectGroup` succeeds
with the `expired_at` of the first row of the pair in store order: at most the
maximum over the pair's rows, equal to it when they agree.  If every row of the
pair belongs to template `a`, `HasRelationExceptTemplate` is false.  If the pair
has no row, `HasRelationExceptTemplate` is false and
`GetExpiredAtBySubjectGroup` fails with the no-rows error. -/
theorem revoke_template_queries (m : subjectTemplateGroupManager) (s g a : Int) :
    ((∃ rB ∈ m.DB, rB.SubjectPK = s ∧ rB.GroupPK = g ∧ rB.TemplateID ≠ a) →
        HasRelationExceptTemplate m s g a = (true, none)
        ∧ ∃ row mx,
            (m.DB.filter (pairMatches s g)).head? = some row
          ∧ GetExpiredAtBySubjectGroup m s g = (row.ExpiredAt, none)
          ∧ row ∈ m.DB ∧ row.SubjectPK = s ∧ row.GroupPK = g
          ∧ maxExpiredAt m.DB s g = some mx
          ∧ row.ExpiredAt ≤ mx
          ∧ ((∀ r ∈ m.DB, r.SubjectPK = s → r.GroupPK = g → r.ExpiredAt = row.ExpiredAt)
              → row.ExpiredAt = mx))
      ∧ ((∀ r ∈ m.DB, r.SubjectPK = s → r.GroupPK = g → r.TemplateID = a) →
          HasRelationExceptTemplate m s g a = (false, none))
      ∧ ((¬ ∃ r ∈ m.DB, r.SubjectPK = s ∧ r.GroupPK = g) →
          HasRelationExceptTemplate m s g a = (false, none)
          ∧ GetExpiredAtBySubjectGroup m s g = (0, some .ErrNoRows)) := by
  refine ⟨?_, ?_, ?_⟩
  · rintro ⟨rB, hmem, hs, hg, ht⟩
    refine ⟨(hasRelation_true_iff m s g a).mpr ⟨rB, hmem, hs, hg, ht⟩, ?_⟩
    obtain ⟨row, mx, h1, h2, h3, h4, h5, h6, h7, _, h9⟩ :=
      first_row_facts m s g ⟨rB, hmem, hs, hg⟩
    exact ⟨row, mx, h1, h2, h3, h4, h5, h6, h7, h9⟩
  · intro hall
    refine (hasRelation_false_iff m s g a).mpr ?_
    rintro ⟨r, hr, hs, hg, ht⟩
    exact ht (hall r hr hs hg)
  · intro hnone
    refine ⟨(hasRelation_false_iff m s g a).mpr ?_, no_row_facts m s g hnone⟩
    rintro ⟨r, hr, hs, hg, _⟩
    exact hnone ⟨r, hr, hs, hg⟩

/-- C3 (witness): the amended statement on the table of the refutation, where
templates 8 and 9 also grant the pair (5, 100), on a table where template 7
alone grants it, and on a table where nothing grants it. -/
theorem revoke_template_queries_witness :
    ((∃ rB ∈ [mkRow 1 5 7 100 1, mkRow 2 5 8 100 5, mkRow 3 5 9 100 9],
          rB.SubjectPK = 5 ∧ rB.GroupPK = 100 ∧ rB.TemplateID ≠ 7)
        ∧ HasRelationExceptTemplate
            ⟨[mkRow 1 5 7 100 1, mkRow 2 5 8 100 5, mkRow 3 5 9 100 9]⟩ 5 100 7
            = (true, none))
      ∧ ((∀ r ∈ [mkRow 1 5 7 100 1, mkRow 2 6 8 100 5],
          r.SubjectPK = 5 → r.GroupPK = 100 → r.TemplateID = 7)
        ∧ HasRelationExceptTemplate ⟨[mkRow 1 5 7 100 1, mkRow 2 6 8 100 5]⟩ 5 100 7
            = (false, none))
      ∧ ((¬ ∃ r ∈ [mkRow 2 6 8 100 5], r.SubjectPK = 5 ∧ r.GroupPK = 100)
        ∧ HasRelationExceptTemplate ⟨[mkRow 2 6 8 100 5]⟩ 5 100 7 = (false, none)
        ∧ GetExpiredAtBySubjectGroup ⟨[mkRow 2 6 8 100 5]⟩ 5 100
            = (0, some .ErrNoRows)) :=
  ⟨⟨⟨mkRow 2 5 8 100 5, by decide, by decide⟩,
     ((revoke_template_queries
        ⟨[mkRow 1 5 7 100 1, mkRow 2 5 8 100 5, mkRow 3 5 9 100 9]⟩ 5 100 7).1
        ⟨mkRow 2 5 8 100 5, by decide, by decide⟩).1⟩,
   ⟨by decide,
     (revoke_template_queries ⟨[mkRow 1 5 7 100 1, mkRow 2 6 8 100 5]⟩ 5 100 7).2.1
        (by decide)⟩,
   ⟨by decide,
     (revoke_template_queries ⟨[mkRow 2 6 8 100 5]⟩ 5 100 7).2.2 (by decide)⟩⟩

end dao

namespace handler

/-! ## Lemmas on the handlers -/

theorem foldl_append_singleton {α β : Type} (f : α → β) (l : List α) (acc : List β) :
    l.foldl (fun acc m => acc ++ [f m]) acc = acc ++ l.map f := by
  induction l generalizing acc with
  | nil => simp
  | cons x xs ih => simp [List.foldl_cons, ih]

theorem update_outcome (env : Env) (bind : Except String subjectMemberExpiredAtSerializer) :
    (accepted env.validateExpiredAt bind = false →
        (UpdateSubjectMembersExpiredAt env bind).response.isBadRequest = true
        ∧ (UpdateSubjectMembersExpiredAt env bind).calls = [])
      ∧ (accepted env.validateExpiredAt bind = true →
        ∃ body, bind = .ok body ∧ (UpdateSubjectMembersExpiredAt env bind).calls
          = [CtlCall.UpdateSubjectMembersExpiredAt body.Type_ body.ID
              (body.Members.map (fun m =>
                { Type_ := m.Type_, ID := m.ID, PolicyExpiredAt := m.PolicyExpiredAt }))]) := by
  cases bind with
  | error e => simp [accepted, UpdateSubjectMembersExpiredAt, Response.isBadRequest]
  | ok body =>
    cases hv : env.validateExpiredAt body with
    | mk ok message =>
      cases ok with
      | false => simp [accepted, UpdateSubjectMembersExpiredAt, hv, Response.isBadRequest]
      | true =>
        simp only [accepted, UpdateSubjectMembersExpiredAt, hv, foldl_append_singleton]
        cases env.ctl.UpdateSubjectMembersExpiredAt body.Type_ body.ID _ <;> simp

theorem delete_outcome (env : Env) (bind : Except String deleteSubjectMemberSerializer) :
    (accepted (fun b => env.ValidateArray b.Members) bind = false →
        (DeleteSubjectMembers env bind).response.isBadRequest = true
        ∧ (DeleteSubjectMembers env bind).calls = [])
      ∧ (accepted (fun b => env.ValidateArray b.Members) bind = true →
        ∃ body, bind = .ok body ∧ (DeleteSubjectMembers env bind).calls
          = [CtlCall.DeleteSubjectMembers body.Type_ body.ID (copySubjects body.Members)]) := by
  cases bind with
  | error e => simp [accepted, DeleteSubjectMembers, Response.isBadRequest]
  | ok body =>
    cases hv : env.ValidateArray body.Members with
    | mk ok message =>
      cases ok with
      | false => simp [accepted, DeleteSubjectMembers, hv, Response.isBadRequest]
      | true =>
        simp only [accepted, DeleteSubjectMembers, hv]
        cases env.ctl.DeleteSubjectMembers body.Type_ body.ID _ <;> simp

theorem add_outcome (env : Env) (bind : Except String addSubjectMembersSerializer) :
    (accepted env.validateAdd bind = false →
        (BatchAddSubjectMembers env bind).response.isBadRequest = true
        ∧ (BatchAddSubjectMembers env bind).calls = [])
      ∧ (accepted env.validateAdd bind = true →
        ∃ body, bind = .ok body ∧ (BatchAddSubjectMembers env bind).calls
          = [CtlCall.CreateOrUpdateSubjectMembers body.Type_ body.ID
              (body.Members.map (fun m =>
                { Type_ := m.Type_, ID := m.ID, PolicyExpiredAt := body.PolicyExpiredAt }))]) := by
  cases bind with
  | error e => simp [accepted, BatchAddSubjectMembers, Response.isBadRequest]
  | ok body =>
    cases hv : env.validateAdd body with
    | mk ok message =>
      cases ok with
      | false => simp [accepted, BatchAddSubjectMembers, hv, Response.isBadRequest]
      | true =>
        simp only [accepted, BatchAddSubjectMembers, hv, foldl_append_singleton]
        cases env.ctl.CreateOrUpdateSubjectMembers body.Type_ body.ID _ <;> simp

theorem filter_outcome (env : Env)
    (bind : Except String filterSubjectsBeforeExpiredAtSerializer) :
    (accepted env.validateFilter bind = false →
        (ListExistSubjectsBeforeExpiredAt env bind).response.isBadRequest = true
        ∧ (ListExistSubjectsBeforeExpiredAt env bind).calls = [])
      ∧ (accepted env.validateFilter bind = true →
        ∃ body, bind = .ok body ∧ (ListExistSubjectsBeforeExpiredAt env bind).calls
          = [CtlCall.ListExistSubjectsBeforeExpiredAt (copySubjects body.Subjects)
              body.BeforeExpiredAt]) := by
  cases bind with
  | error e => simp [accepted, ListExistSubjectsBeforeExpiredAt, Response.isBadRequest]
  | ok body =>
    cases hv : env.validateFilter body with
    | mk ok message =>
      cases ok with
      | false =>
        simp [accepted, ListExistSubjectsBeforeExpiredAt, hv, Response.isBadRequest]
      | true =>
        simp only [accepted, ListExistSubjectsBeforeExpiredAt, hv]
        cases env.ctl.ListExistSubjectsBeforeExpiredAt _ body.BeforeExpiredAt <;> simp

/-! ## Claims on the handlers -/

/-- C7: in `UpdateSubjectMembersExpiredAt`, `DeleteSubjectMembers`,
`BatchAddSubjectMembers` and `ListExistSubjectsBeforeExpiredAt`, a request whose
binding fails or whose validation step is not ok gets a bad-request response
and no call on the group controller; the controller is called, exactly once,
exactly when binding and validation both succeed. -/
theorem handlers_reject_before_controller (env : Env)
    (b1 : Except String subjectMemberExpiredAtSerializer)
    (b2 : Except String deleteSubjectMemberSerializer)
    (b3 : Except String addSubjectMembersSerializer)
    (b4 : Except String filterSubjectsBeforeExpiredAtSerializer) :
    ((accepted env.validateExpiredAt b1 = false →
          (UpdateSubjectMembersExpiredAt env b1).response.isBadRequest = true
          ∧ (UpdateSubjectMembersExpiredAt env b1).calls = [])
        ∧ ((UpdateSubjectMembersExpiredAt env b1).calls.length = 1
          ↔ accepted env.validateExpiredAt b1 = true))
      ∧ ((accepted (fun b => env.ValidateArray b.Members) b2 = false →
          (DeleteSubjectMembers env b2).response.isBadRequest = true
          ∧ (DeleteSubjectMembers env b2).calls = [])
        ∧ ((DeleteSubjectMembers env b2).calls.length = 1
          ↔ accepted (fun b => env.ValidateArray b.Members) b2 = true))
      ∧ ((accepted env.validateAdd b3 = false →
          (BatchAddSubjectMembers env b3).response.isBadRequest = true
          ∧ (BatchAddSubjectMembers env b3).calls = [])
        ∧ ((BatchAddSubjectMembers env b3).calls.length = 1
          ↔ accepted env.validateAdd b3 = true))
      ∧ ((accepted env.validateFilter b4 = false →
          (ListExistSubjectsBeforeExpiredAt env b4).response.isBadRequest = true
          ∧ (ListExistSubjectsBeforeExpiredAt env b4).calls = [])
        ∧ ((ListExistSubjectsBeforeExpiredAt env b4).calls.length = 1
          ↔ accepted env.validateFilter b4 = true)) := by
  refine ⟨⟨(update_outcome env b1).1, ?_⟩, ⟨(delete_outcome env b2).1, ?_⟩,
    ⟨(add_outcome env b3).1, ?_⟩, ⟨(filter_outcome env b4).1, ?_⟩⟩
  · cases ha : accepted env.validateExpiredAt b1 with
    | false => simp [((update_outcome env b1).1 ha).2]
    | true => obtain ⟨_, _, hc⟩ := (update_outcome env b1).2 ha; simp [hc]
  · cases ha : accepted (fun b => env.ValidateArray b.Members) b2 with
    | false => simp [((delete_outcome env b2).1 ha).2]
    | true => obtain ⟨_, _, hc⟩ := (delete_outcome env b2).2 ha; simp [hc]
  · cases ha : accepted env.validateAdd b3 with
    | false => simp [((add_outcome env b3).1 ha).2]
    | true => obtain ⟨_, _, hc⟩ := (add_outcome env b3).2 ha; simp [hc]
  · cases ha : accepted env.validateFilter b4 with
    | false => simp [((filter_outcome env b4).1 ha).2]
    | true => obtain ⟨_, _, hc⟩ := (filter_outcome env b4).2 ha; simp [hc]

/-- C7 (witness): a body that fails to bind, a delete body with no member, a
valid add body and a filter body with no subject. -/
theorem handlers_reject_before_controller_witness :
    ((UpdateSubjectMembersExpiredAt sampleEnv (.error "EOF")).response.isBadRequest = true
        ∧ (UpdateSubjectMembersExpiredAt sampleEnv (.error "EOF")).calls = [])
      ∧ ((DeleteSubjectMembers sampleEnv (.ok ⟨"group", "1", []⟩)).response.isBadRequest = true
        ∧ (DeleteSubjectMembers sampleEnv (.ok ⟨"group", "1", []⟩)).calls = [])
      ∧ (BatchAddSubjectMembers sampleEnv
          (.ok ⟨"group", "1", 4102444800, [⟨"user", "admin"⟩]⟩)).calls.length = 1
      ∧ ((ListExistSubjectsBeforeExpiredAt sampleEnv (.ok ⟨[], 0⟩)).response.isBadRequest = true
        ∧ (ListExistSubjectsBeforeExpiredAt sampleEnv (.ok ⟨[], 0⟩)).calls = []) :=
  ⟨(handlers_reject_before_controller sampleEnv (.error "EOF") (.ok ⟨"group", "1", []⟩)
      (.ok ⟨"group", "1", 4102444800, [⟨"user", "admin"⟩]⟩) (.ok ⟨[], 0⟩)).1.1 rfl,
   (handlers_reject_before_controller sampleEnv (.error "EOF") (.ok ⟨"group", "1", []⟩)
      (.ok ⟨"group", "1", 4102444800, [⟨"user", "admin"⟩]⟩) (.ok ⟨[], 0⟩)).2.1.1 rfl,
   (handlers_reject_before_controller sampleEnv (.error "EOF") (.ok ⟨"group", "1", []⟩)
      (.ok ⟨"group", "1", 4102444800, [⟨"user", "admin"⟩]⟩) (.ok ⟨[], 0⟩)).2.2.1.2.mpr rfl,
   (handlers_reject_before_controller sampleEnv (.error "EOF") (.ok ⟨"group", "1", []⟩)
      (.ok ⟨"group", "1", 4102444800, [⟨"user", "admin"⟩]⟩) (.ok ⟨[], 0⟩)).2.2.2.1 rfl⟩

/-- C10: for a valid add request, `BatchAddSubjectMembers` calls
`CreateOrUpdateSubjectMembers` with the body's type and id and a member list of
the length and order of the request's members, entry by entry the member's
`Type` and `ID` with the one `PolicyExpiredAt` of the body; for a valid renewal
request, `UpdateSubjectMembersExpiredAt` passes each member's `Type`, `ID` and
own `PolicyExpiredAt`, in the same length and order. -/
theorem handlers_member_lists (env : Env) (add : addSubjectMembersSerializer)
    (renew : subjectMemberExpiredAtSerializer)
    (hadd : (env.validateAdd add).1 = true)
    (hrenew : (env.validateExpiredAt renew).1 = true) :
    (∃ passed : List GroupMember,
        (BatchAddSubjectMembers env (.ok add)).calls
          = [CtlCall.CreateOrUpdateSubjectMembers add.Type_ add.ID passed]
        ∧ passed.length = add.Members.length
        ∧ ∀ i : Nat, passed[i]? = (add.Members[i]?).map (fun m =>
            { Type_ := m.Type_, ID := m.ID, PolicyExpiredAt := add.PolicyExpiredAt }))
      ∧ (∃ passed : List GroupMember,
        (UpdateSubjectMembersExpiredAt env (.ok renew)).calls
          = [CtlCall.UpdateSubjectMembersExpiredAt renew.Type_ renew.ID passed]
        ∧ passed.length = renew.Members.length
        ∧ ∀ i : Nat, passed[i]? = (renew.Members[i]?).map (fun m =>
            { Type_ := m.Type_, ID := m.ID, PolicyExpiredAt := m.PolicyExpiredAt })) := by
  constructor
  · obtain ⟨body, hb, hc⟩ := (add_outcome env (.ok add)).2 hadd
    cases hb
    exact ⟨_, hc, by simp, fun i => by simp⟩
  · obtain ⟨body, hb, hc⟩ := (update_outcome env (.ok renew)).2 hrenew
    cases hb
    exact ⟨_, hc, by simp, fun i => by simp⟩

/-- C10 (witness): two members added under the body's expiry 4102444800, and
two members renewed under their own expiries 10 and 20. -/
theorem handlers_member_lists_witness :
    ((sampleEnv.validateAdd
        ⟨"group", "1", 4102444800, [⟨"user", "a"⟩, ⟨"department", "b"⟩]⟩).1 = true
      ∧ (sampleEnv.validateExpiredAt
        ⟨"group", "1", [⟨"user", "a", 10⟩, ⟨"department", "b", 20⟩]⟩).1 = true)
      ∧ (∃ passed : List GroupMember,
        (BatchAddSubjectMembers sampleEnv
          (.ok ⟨"group", "1", 4102444800, [⟨"user", "a"⟩, ⟨"department", "b"⟩]⟩)).calls
          = [CtlCall.CreateOrUpdateSubjectMembers "group" "1" passed]
        ∧ passed.length = 2
        ∧ ∀ i : Nat, passed[i]?
          = (([⟨"user", "a"⟩, ⟨"department", "b"⟩] : List memberSerializer)[i]?).map
              (fun m => { Type_ := m.Type_, ID := m.ID, PolicyExpiredAt := 4102444800 }))
      ∧ (∃ passed : List GroupMember,
        (UpdateSubjectMembersExpiredAt sampleEnv
          (.ok ⟨"group", "1", [⟨"user", "a", 10⟩, ⟨"department", "b", 20⟩]⟩)).calls
          = [CtlCall.UpdateSubjectMembersExpiredAt "group" "1" passed]
        ∧ passed.length = 2
        ∧ ∀ i : Nat, passed[i]?
          = (([⟨"user", "a", 10⟩, ⟨"department", "b", 20⟩] :
                List memberExpiredAtSerializer)[i]?).map
              (fun m => { Type_ := m.Type_, ID := m.ID,
                          PolicyExpiredAt := m.PolicyExpiredAt })) :=
  ⟨⟨rfl, rfl⟩,
   handlers_member_lists sampleEnv
    ⟨"group", "1", 4102444800, [⟨"user", "a"⟩, ⟨"department", "b"⟩]⟩
    ⟨"group", "1", [⟨"user", "a", 10⟩, ⟨"department", "b", 20⟩]⟩ rfl rfl⟩

end handler
